import Mathlib

/-!
Shallow embedding of the LVGL window widget (`src/src/lv_widgets/lv_win.c`)
and proofs about its layout, signal handling, construction and accessors.

The repository ships only `lv_win.c`; the generic object-tree collaborator
(`lv_obj.c`), the page widget and the memory manager are external.  Where the
behaviour of those collaborators decides a property, the corresponding
definition is modelled from the specification text and says so in its doc
comment.  Everything else is a direct translation of the C source.

Coordinates (`lv_coord_t`) are modelled as `Int`; the C division used for
vertical centering truncates toward zero, which is `Int.tdiv`.
-/

namespace LvWin

/-- Geometry of one header control button: position relative to the header
(`lv_obj` coordinates are kept relative to the parent in this model, which
matches LVGL moving children together with their parent) and its size. -/
structure LvBtn where
  x : Int
  y : Int
  w : Int
  h : Int
deriving DecidableEq, Repr

/-- The window state visible to `lv_win_realign` and `lv_win_add_btn`:
the window size, the presence and geometry of the header and page children
(`ext->header`, `ext->page`), the header children list and the style paddings
consulted by the layout code.

Modelled from the spec: the header child list order of `lv_obj.c` is not in
`src/`; per the spec the realignment walks the children from the last-added
to the first-added, so `btns` stores the most recently created button first
and `lv_obj_get_child_back` iteration is list order. -/
structure LvWinState where
  winW : Int
  winH : Int
  hasHeader : Bool
  hasPage : Bool
  headerX : Int
  headerY : Int
  headerW : Int
  headerH : Int
  pageX : Int
  pageY : Int
  pageW : Int
  pageH : Int
  btns : List LvBtn
  hPadTop : Int
  hPadBottom : Int
  hPadInner : Int
  hPadRight : Int
deriving DecidableEq, Repr

/-- `lv_obj_get_height_fit(ext->header)`: the header height minus its own
top and bottom style padding (the header content height). -/
def lv_obj_get_height_fit_header (s : LvWinState) : Int :=
  s.headerH - s.hPadTop - s.hPadBottom

/-- Modelled from the spec: `lv_obj_align` of `lv_obj.c` is not in `src/`.
The realignment loop of `lv_win_realign` (lines 617-628): each button is
resized to a `side` by `side` square; the first-visited button is aligned
`LV_ALIGN_IN_RIGHT_MID` inside the header with x offset `-right` (right edge
at the right-padding inset, vertically centered), every later one is aligned
`LV_ALIGN_OUT_LEFT_MID` to the previously visited button with x offset
`-inner` (immediately to its left, separated by the inner-padding gap).
`hw`/`hh` are the header's width and height at alignment time. -/
def align_ctrl_btns (side inner right hw hh : Int) :
    Option LvBtn → List LvBtn → List LvBtn
  | _, [] => []
  | none, _b :: rest =>
    let b : LvBtn :=
      { x := hw - side - right, y := Int.tdiv (hh - side) 2, w := side, h := side }
    b :: align_ctrl_btns side inner right hw hh (some b) rest
  | some prev, _b :: rest =>
    let b : LvBtn :=
      { x := prev.x - side - inner, y := prev.y + Int.tdiv (prev.h - side) 2,
        w := side, h := side }
    b :: align_ctrl_btns side inner right hw hh (some b) rest

/-- `lv_win_realign` (lines 603-634): no-op when page or header is missing;
otherwise set the header width to the window width, resize and right-stack
all control buttons, move the header to (0,0), resize the page to
(window width, window height - header height) and align it
`LV_ALIGN_OUT_BOTTOM_LEFT` to the header (directly below, left-aligned). -/
def lv_win_realign (s : LvWinState) : LvWinState :=
  if s.hasPage = false ∨ s.hasHeader = false then s
  else
    let hw := s.winW
    let side := lv_obj_get_height_fit_header s
    { s with
      headerW := hw
      btns := align_ctrl_btns side s.hPadInner s.hPadRight hw s.headerH none s.btns
      headerX := 0
      headerY := 0
      pageW := s.winW
      pageH := s.winH - s.headerH
      pageX := 0
      pageY := 0 + s.headerH }

/-- `lv_win_add_btn` (lines 168-187): create a button as the newest child of
the header, size it to the header content height square (the embedded image
child carries no geometry of its own here), then realign. -/
def lv_win_add_btn (s : LvWinState) : LvWinState :=
  let btn_size := lv_obj_get_height_fit_header s
  let btn : LvBtn := { x := 0, y := 0, w := btn_size, h := btn_size }
  lv_win_realign { s with btns := btn :: s.btns }

/-! Helper lemmas about the button-alignment loop. -/

lemma align_ctrl_btns_length (side inner right hw hh : Int) :
    ∀ (p : Option LvBtn) (bs : List LvBtn),
      (align_ctrl_btns side inner right hw hh p bs).length = bs.length := by
  intro p bs
  induction bs generalizing p with
  | nil => cases p <;> rfl
  | cons b rest ih => cases p <;> simp [align_ctrl_btns, ih]

lemma align_ctrl_btns_congr (side inner right hw hh : Int) :
    ∀ (p : Option LvBtn) (bs cs : List LvBtn), bs.length = cs.length →
      align_ctrl_btns side inner right hw hh p bs =
        align_ctrl_btns side inner right hw hh p cs := by
  intro p bs
  induction bs generalizing p with
  | nil =>
    intro cs h
    cases cs with
    | nil => rfl
    | cons c cs => simp at h
  | cons b rest ih =>
    intro cs h
    cases cs with
    | nil => simp at h
    | cons c cs =>
      simp only [List.length_cons, Nat.add_right_cancel_iff] at h
      cases p <;> simp [align_ctrl_btns] <;> exact ih _ cs h

lemma align_ctrl_btns_sizes (side inner right hw hh : Int) :
    ∀ (p : Option LvBtn) (bs : List LvBtn) (b : LvBtn),
      b ∈ align_ctrl_btns side inner right hw hh p bs → b.w = side ∧ b.h = side := by
  intro p bs
  induction bs generalizing p with
  | nil => intro b hb; cases p <;> simp [align_ctrl_btns] at hb
  | cons c rest ih =>
    intro b hb
    cases p <;> simp [align_ctrl_btns] at hb <;>
      rcases hb with rfl | hb
    · exact ⟨rfl, rfl⟩
    · exact ih _ _ hb
    · exact ⟨rfl, rfl⟩
    · exact ih _ _ hb

lemma align_ctrl_btns_chain (side inner right hw hh : Int) :
    ∀ (p : Option LvBtn) (bs : List LvBtn),
      List.Chain' (fun c n => n.x = c.x - side - inner)
        (align_ctrl_btns side inner right hw hh p bs) := by
  intro p bs
  induction bs generalizing p with
  | nil => cases p <;> simp [align_ctrl_btns]
  | cons b rest ih =>
    cases p with
    | none =>
      refine List.chain'_cons'.mpr ⟨?_, ih _⟩
      intro y hy
      cases rest with
      | nil => simp [align_ctrl_btns] at hy
      | cons c cs =>
        simp only [align_ctrl_btns, List.head?_cons, Option.mem_def,
          Option.some.injEq] at hy
        subst hy
        rfl
    | some prev =>
      refine List.chain'_cons'.mpr ⟨?_, ih _⟩
      intro y hy
      cases rest with
      | nil => simp [align_ctrl_btns] at hy
      | cons c cs =>
        simp only [align_ctrl_btns, List.head?_cons, Option.mem_def,
          Option.some.injEq] at hy
        subst hy
        rfl

lemma lv_win_realign_eq (s : LvWinState) (hp : s.hasPage = true)
    (hh : s.hasHeader = true) :
    lv_win_realign s =
      { s with
        headerW := s.winW
        btns := align_ctrl_btns (s.headerH - s.hPadTop - s.hPadBottom)
          s.hPadInner s.hPadRight s.winW s.headerH none s.btns
        headerX := 0
        headerY := 0
        pageW := s.winW
        pageH := s.winH - s.headerH
        pageX := 0
        pageY := 0 + s.headerH } := by
  simp [lv_win_realign, lv_obj_get_height_fit_header, hp, hh]

lemma lv_win_realign_skip (s : LvWinState)
    (hc : s.hasPage = false ∨ s.hasHeader = false) :
    lv_win_realign s = s := by
  simp only [lv_win_realign]
  rw [if_pos hc]

lemma lv_win_add_btn_eq (u : LvWinState) (hp : u.hasPage = true)
    (hh : u.hasHeader = true) :
    lv_win_add_btn u =
      { u with
        headerW := u.winW
        btns := align_ctrl_btns (u.headerH - u.hPadTop - u.hPadBottom)
          u.hPadInner u.hPadRight u.winW u.headerH none
          ({ x := 0, y := 0, w := u.headerH - u.hPadTop - u.hPadBottom,
             h := u.headerH - u.hPadTop - u.hPadBottom } :: u.btns)
        headerX := 0
        headerY := 0
        pageW := u.winW
        pageH := u.winH - u.headerH
        pageX := 0
        pageY := 0 + u.headerH } := by
  simp [lv_win_add_btn, lv_win_realign, lv_obj_get_height_fit_header, hp, hh]

lemma lv_win_add_btn_const (u : LvWinState) :
    (lv_win_add_btn u).winW = u.winW ∧ (lv_win_add_btn u).winH = u.winH ∧
    (lv_win_add_btn u).headerH = u.headerH ∧
    (lv_win_add_btn u).hasHeader = u.hasHeader ∧
    (lv_win_add_btn u).hasPage = u.hasPage ∧
    (lv_win_add_btn u).hPadTop = u.hPadTop ∧
    (lv_win_add_btn u).hPadBottom = u.hPadBottom ∧
    (lv_win_add_btn u).hPadInner = u.hPadInner ∧
    (lv_win_add_btn u).hPadRight = u.hPadRight := by
  simp only [lv_win_add_btn, lv_win_realign, lv_obj_get_height_fit_header]
  split <;> simp

lemma lv_win_add_btn_iter_const (s : LvWinState) (k : Nat) :
    (lv_win_add_btn^[k] s).winW = s.winW ∧ (lv_win_add_btn^[k] s).winH = s.winH ∧
    (lv_win_add_btn^[k] s).headerH = s.headerH ∧
    (lv_win_add_btn^[k] s).hasHeader = s.hasHeader ∧
    (lv_win_add_btn^[k] s).hasPage = s.hasPage ∧
    (lv_win_add_btn^[k] s).hPadTop = s.hPadTop ∧
    (lv_win_add_btn^[k] s).hPadBottom = s.hPadBottom ∧
    (lv_win_add_btn^[k] s).hPadInner = s.hPadInner ∧
    (lv_win_add_btn^[k] s).hPadRight = s.hPadRight := by
  induction k with
  | zero => simp
  | succ n ih =>
    rw [Function.iterate_succ_apply']
    obtain ⟨a1, a2, a3, a4, a5, a6, a7, a8, a9⟩ :=
      lv_win_add_btn_const (lv_win_add_btn^[n] s)
    obtain ⟨b1, b2, b3, b4, b5, b6, b7, b8, b9⟩ := ih
    exact ⟨a1.trans b1, a2.trans b2, a3.trans b3, a4.trans b4, a5.trans b5,
      a6.trans b6, a7.trans b7, a8.trans b8, a9.trans b9⟩

/-- C1: after each of N `lv_win_add_btn` calls (each ends in `lv_win_realign`),
every header control button is a square whose side is the header content
height (header height minus its padding), the most-recently-added button
(the head of the child list) is right-aligned in the header at the
right-padding inset, each earlier-added button sits immediately left of its
successor separated by the inner-padding gap (the last-added button is the
rightmost), and the header/page boundary (header at y = 0 with unchanged
height, page at (0, header height) with height window height minus header
height) is the same after every one of the N calls. -/
theorem add_btn_button_row_layout (s : LvWinState) (hh : s.hasHeader = true)
    (hp : s.hasPage = true) (N : Nat) (hN : 1 ≤ N) :
    (∀ b ∈ (lv_win_add_btn^[N] s).btns,
        b.w = lv_obj_get_height_fit_header (lv_win_add_btn^[N] s) ∧
        b.h = lv_obj_get_height_fit_header (lv_win_add_btn^[N] s)) ∧
    (lv_win_add_btn^[N] s).headerW = (lv_win_add_btn^[N] s).winW ∧
    ((lv_win_add_btn^[N] s).btns.head?.map LvBtn.x =
      some ((lv_win_add_btn^[N] s).headerW - (lv_win_add_btn^[N] s).hPadRight -
        lv_obj_get_height_fit_header (lv_win_add_btn^[N] s))) ∧
    List.Chain'
      (fun c n => n.x = c.x - lv_obj_get_height_fit_header (lv_win_add_btn^[N] s) -
        (lv_win_add_btn^[N] s).hPadInner)
      (lv_win_add_btn^[N] s).btns ∧
    (∀ k, 1 ≤ k → k ≤ N →
      (lv_win_add_btn^[k] s).headerH = s.headerH ∧
      (lv_win_add_btn^[k] s).headerY = 0 ∧
      (lv_win_add_btn^[k] s).pageX = 0 ∧
      (lv_win_add_btn^[k] s).pageY = s.headerH ∧
      (lv_win_add_btn^[k] s).pageW = s.winW ∧
      (lv_win_add_btn^[k] s).pageH = s.winH - s.headerH) := by
  obtain ⟨m, rfl⟩ : ∃ m, N = m + 1 := ⟨N - 1, (Nat.succ_pred_eq_of_pos hN).symm⟩
  obtain ⟨u1, u2, u3, u4, u5, u6, u7, u8, u9⟩ := lv_win_add_btn_iter_const s m
  have hhu : (lv_win_add_btn^[m] s).hasHeader = true := u4.trans hh
  have hpu : (lv_win_add_btn^[m] s).hasPage = true := u5.trans hp
  have hstep : lv_win_add_btn^[m + 1] s = lv_win_add_btn (lv_win_add_btn^[m] s) :=
    Function.iterate_succ_apply' _ _ _
  rw [lv_win_add_btn_eq _ hpu hhu] at hstep
  refine ⟨?_, ?_, ?_, ?_, ?_⟩
  · rw [hstep]
    intro b hb
    exact align_ctrl_btns_sizes _ _ _ _ _ _ _ b hb
  · rw [hstep]
  · rw [hstep]
    simp only [align_ctrl_btns, List.head?_cons, Option.map_some]
    dsimp [lv_obj_get_height_fit_header]
    congr 1
    omega
  · rw [hstep]
    exact align_ctrl_btns_chain _ _ _ _ _ _ _
  · intro k hk1 _hkN
    obtain ⟨j, rfl⟩ : ∃ j, k = j + 1 := ⟨k - 1, (Nat.succ_pred_eq_of_pos hk1).symm⟩
    obtain ⟨v1, v2, v3, v4, v5, v6, v7, v8, v9⟩ := lv_win_add_btn_iter_const s j
    have hhv : (lv_win_add_btn^[j] s).hasHeader = true := v4.trans hh
    have hpv : (lv_win_add_btn^[j] s).hasPage = true := v5.trans hp
    have hstep2 : lv_win_add_btn^[j + 1] s =
        lv_win_add_btn (lv_win_add_btn^[j] s) :=
      Function.iterate_succ_apply' _ _ _
    rw [lv_win_add_btn_eq _ hpv hhv] at hstep2
    rw [hstep2]
    refine ⟨v3, rfl, rfl, ?_, v1, ?_⟩
    · show 0 + (lv_win_add_btn^[j] s).headerH = s.headerH
      rw [zero_add, v3]
    · show (lv_win_add_btn^[j] s).winH - (lv_win_add_btn^[j] s).headerH =
        s.winH - s.headerH
      rw [v2, v3]

/-- Concrete window state used to witness the hypotheses of the layout
theorems. -/
def wstate1 : LvWinState :=
  { winW := 100, winH := 80, hasHeader := true, hasPage := true,
    headerX := 5, headerY := 7, headerW := 9, headerH := 30,
    pageX := 1, pageY := 2, pageW := 3, pageH := 4, btns := [],
    hPadTop := 2, hPadBottom := 2, hPadInner := 3, hPadRight := 4 }

/-- Witness for C1 at a concrete window state and N = 2. -/
theorem add_btn_button_row_layout_witness :
    wstate1.hasHeader = true ∧ wstate1.hasPage = true ∧ 1 ≤ 2 ∧
    ((∀ b ∈ (lv_win_add_btn^[2] wstate1).btns,
        b.w = lv_obj_get_height_fit_header (lv_win_add_btn^[2] wstate1) ∧
        b.h = lv_obj_get_height_fit_header (lv_win_add_btn^[2] wstate1)) ∧
    (lv_win_add_btn^[2] wstate1).headerW = (lv_win_add_btn^[2] wstate1).winW ∧
    ((lv_win_add_btn^[2] wstate1).btns.head?.map LvBtn.x =
      some ((lv_win_add_btn^[2] wstate1).headerW -
        (lv_win_add_btn^[2] wstate1).hPadRight -
        lv_obj_get_height_fit_header (lv_win_add_btn^[2] wstate1))) ∧
    List.Chain'
      (fun c n => n.x = c.x -
        lv_obj_get_height_fit_header (lv_win_add_btn^[2] wstate1) -
        (lv_win_add_btn^[2] wstate1).hPadInner)
      (lv_win_add_btn^[2] wstate1).btns ∧
    (∀ k, 1 ≤ k → k ≤ 2 →
      (lv_win_add_btn^[k] wstate1).headerH = wstate1.headerH ∧
      (lv_win_add_btn^[k] wstate1).headerY = 0 ∧
      (lv_win_add_btn^[k] wstate1).pageX = 0 ∧
      (lv_win_add_btn^[k] wstate1).pageY = wstate1.headerH ∧
      (lv_win_add_btn^[k] wstate1).pageW = wstate1.winW ∧
      (lv_win_add_btn^[k] wstate1).pageH = wstate1.winH - wstate1.headerH)) :=
  ⟨rfl, rfl, by decide, add_btn_button_row_layout wstate1 rfl rfl 2 (by decide)⟩

/-- C2: after `lv_win_realign` runs on a window whose header and page are
both present, the header and page each span the window width, the header
sits at (0,0), the page height is the window height minus the header height,
and the page sits directly below the header, left-aligned. -/
theorem realign_header_page_geometry (s : LvWinState) (hp : s.hasPage = true)
    (hh : s.hasHeader = true) :
    (lv_win_realign s).headerW = (lv_win_realign s).winW ∧
    (lv_win_realign s).headerX = 0 ∧ (lv_win_realign s).headerY = 0 ∧
    (lv_win_realign s).pageW = (lv_win_realign s).winW ∧
    (lv_win_realign s).pageH = (lv_win_realign s).winH - (lv_win_realign s).headerH ∧
    (lv_win_realign s).pageX = (lv_win_realign s).headerX ∧
    (lv_win_realign s).pageY = (lv_win_realign s).headerY + (lv_win_realign s).headerH := by
  rw [lv_win_realign_eq s hp hh]
  exact ⟨rfl, rfl, rfl, rfl, rfl, rfl, rfl⟩

/-- Concrete window state used to witness C2. -/
def wstate2 : LvWinState :=
  { winW := 64, winH := 48, hasHeader := true, hasPage := true,
    headerX := 8, headerY := 9, headerW := 10, headerH := 16,
    pageX := 1, pageY := 2, pageW := 3, pageH := 4,
    btns := [{ x := 0, y := 0, w := 5, h := 5 }],
    hPadTop := 1, hPadBottom := 1, hPadInner := 2, hPadRight := 2 }

/-- Witness for C2 at a concrete window state. -/
theorem realign_header_page_geometry_witness :
    wstate2.hasPage = true ∧ wstate2.hasHeader = true ∧
    ((lv_win_realign wstate2).headerW = (lv_win_realign wstate2).winW ∧
    (lv_win_realign wstate2).headerX = 0 ∧ (lv_win_realign wstate2).headerY = 0 ∧
    (lv_win_realign wstate2).pageW = (lv_win_realign wstate2).winW ∧
    (lv_win_realign wstate2).pageH =
      (lv_win_realign wstate2).winH - (lv_win_realign wstate2).headerH ∧
    (lv_win_realign wstate2).pageX = (lv_win_realign wstate2).headerX ∧
    (lv_win_realign wstate2).pageY =
      (lv_win_realign wstate2).headerY + (lv_win_realign wstate2).headerH) :=
  ⟨rfl, rfl, realign_header_page_geometry wstate2 rfl rfl⟩

/-- C4: the realignment routine is idempotent — running `lv_win_realign`
twice with no intervening state change yields exactly the state of running
it once, for every window state. -/
theorem realign_idempotent (s : LvWinState) :
    lv_win_realign (lv_win_realign s) = lv_win_realign s := by
  obtain ⟨winW, winH, hasHeader, hasPage, hX, hY, hW, hH,
    pX, pY, pW, pH, btns, padT, padB, padI, padR⟩ := s
  cases hasHeader <;> cases hasPage <;>
    simp [lv_win_realign, lv_obj_get_height_fit_header] <;>
    exact align_ctrl_btns_congr _ _ _ _ _ _ _ _
      (align_ctrl_btns_length _ _ _ _ _ _ _)

/-! The child-added (`LV_SIGNAL_CHILD_CHG`) handling of `lv_win_signal`
(lines 528-544). -/

/-- A direct child object as seen by the reparenting loop: an identity and
its `LV_PROTECT_PARENT` flag (`lv_obj_is_protected(child, LV_PROTECT_PARENT)`). -/
structure WObj where
  oid : Nat
  protParent : Bool
deriving DecidableEq, Repr

/-- The part of the window tree the child-added handler touches: whether
`ext->page` is non-null, the window's direct children and the page's
children.

Modelled from the spec: `lv_obj_get_child` of `lv_obj.c` is not in `src/`;
child lists are iterated in list order and `lv_obj_set_parent` inserts the
moved object at the front of the new parent's child list. -/
structure WinTree where
  hasPage : Bool
  winChildren : List WObj
  pageChildren : List WObj
deriving DecidableEq, Repr

/-- The reparenting loop of `lv_win_signal` for `LV_SIGNAL_CHILD_CHG`:
walk the window's direct children; every child without the
parent-protection flag is moved (`lv_obj_set_parent`) into the page
(fetching the next sibling before the move), protected children stay. -/
def move_children_loop : List WObj → List WObj → List WObj × List WObj
  | [], pcs => ([], pcs)
  | c :: rest, pcs =>
    if c.protParent = false then
      move_children_loop rest (c :: pcs)
    else
      let r := move_children_loop rest pcs
      (c :: r.1, r.2)

/-- The `LV_SIGNAL_CHILD_CHG` branch of `lv_win_signal`: if the page is
null nothing happens, otherwise every non-protected direct child of the
window is reparented into the page. -/
def lv_win_signal_child_chg (t : WinTree) : WinTree :=
  if t.hasPage = false then t
  else
    let r := move_children_loop t.winChildren t.pageChildren
    { t with winChildren := r.1, pageChildren := r.2 }

lemma move_children_loop_eq (cs : List WObj) :
    ∀ pcs, move_children_loop cs pcs =
      (cs.filter (fun c => c.protParent),
       (cs.filter (fun c => !c.protParent)).reverse ++ pcs) := by
  induction cs with
  | nil => intro pcs; simp [move_children_loop]
  | cons c rest ih =>
    intro pcs
    by_cases hc : c.protParent = false
    · simp [move_children_loop, hc, ih, List.filter]
    · have hc' : c.protParent = true := by
        cases h : c.protParent
        · exact absurd h hc
        · rfl
      simp [move_children_loop, hc', ih, List.filter]

/-- C3: when the page child is present, after the child-added branch of the
signal handler every non-protected direct child of the window has been
moved into the page's child list and is no longer a direct child of the
window, and every protected direct child (the header and the page
themselves carry `LV_PROTECT_PARENT`) remains a direct child of the
window. -/
theorem signal_child_chg_reparents (t : WinTree) (hp : t.hasPage = true) :
    (∀ c ∈ t.winChildren, c.protParent = false →
      c ∈ (lv_win_signal_child_chg t).pageChildren ∧
      c ∉ (lv_win_signal_child_chg t).winChildren) ∧
    (∀ c ∈ t.winChildren, c.protParent = true →
      c ∈ (lv_win_signal_child_chg t).winChildren) ∧
    (∀ c ∈ t.pageChildren, c ∈ (lv_win_signal_child_chg t).pageChildren) := by
  have hcases : lv_win_signal_child_chg t =
      { t with
        winChildren := t.winChildren.filter (fun c => c.protParent),
        pageChildren :=
          (t.winChildren.filter (fun c => !c.protParent)).reverse ++
            t.pageChildren } := by
    simp [lv_win_signal_child_chg, hp, move_children_loop_eq]
  rw [hcases]
  refine ⟨?_, ?_, ?_⟩
  · intro c hc hprot
    constructor
    · simp only [List.mem_append, List.mem_reverse, List.mem_filter]
      exact Or.inl ⟨hc, by simp [hprot]⟩
    · simp only [List.mem_filter]
      rintro ⟨-, habs⟩
      rw [hprot] at habs
      exact Bool.false_ne_true habs
  · intro c hc hprot
    simp only [List.mem_filter]
    exact ⟨hc, hprot⟩
  · intro c hc
    simp only [List.mem_append]
    exact Or.inr hc

/-- Concrete window tree used to witness C3: one protected child (the
header), the protected page, and two plain children. -/
def wtree3 : WinTree :=
  { hasPage := true,
    winChildren := [⟨10, false⟩, ⟨1, true⟩, ⟨11, false⟩, ⟨2, true⟩],
    pageChildren := [⟨20, false⟩] }

/-- Witness for C3 at a concrete window tree. -/
theorem signal_child_chg_reparents_witness :
    wtree3.hasPage = true ∧
    ((∀ c ∈ wtree3.winChildren, c.protParent = false →
      c ∈ (lv_win_signal_child_chg wtree3).pageChildren ∧
      c ∉ (lv_win_signal_child_chg wtree3).winChildren) ∧
    (∀ c ∈ wtree3.winChildren, c.protParent = true →
      c ∈ (lv_win_signal_child_chg wtree3).winChildren) ∧
    (∀ c ∈ wtree3.pageChildren, c ∈ (lv_win_signal_child_chg wtree3).pageChildren)) :=
  ⟨rfl, signal_child_chg_reparents wtree3 rfl⟩

/-! Construction failure handling of `lv_win_create` (lines 54-71). -/

/-- Modelled from the spec: `lv_obj_create` / `lv_obj_del` of the generic
object-tree manager are not in `src/`. A heap of live tree objects; creating
an object either yields a fresh live object or fails, deleting removes the
object from the live set. -/
structure LvHeap where
  next : Nat
  live : List Nat
deriving DecidableEq, Repr

/-- Object allocation: on success the fresh object becomes live. -/
def lv_obj_create_h (h : LvHeap) (ok : Bool) : Option Nat × LvHeap :=
  if ok then (some h.next, { next := h.next + 1, live := h.next :: h.live })
  else (none, h)

/-- Object deletion: the object leaves the live set. -/
def lv_obj_del_h (h : LvHeap) (id : Nat) : LvHeap :=
  { h with live := h.live.erase id }

/-- `lv_win_create` failure paths (lines 54-71): if the base object
allocation fails, return NULL at once; if the extension-record allocation
(`lv_obj_allocate_ext_attr`, success modelled by `extOk`) fails, delete the
freshly created base object and return NULL.  The successful remainder of
construction is abstracted to returning the new object. -/
def lv_win_create (h : LvHeap) (baseOk extOk : Bool) : Option Nat × LvHeap :=
  match lv_obj_create_h h baseOk with
  | (none, h1) => (none, h1)
  | (some new_win, h1) =>
    if extOk = false then (none, lv_obj_del_h h1 new_win)
    else (some new_win, h1)

/-- C5: when the base allocation fails `lv_win_create` returns an absent
result immediately with the heap untouched, and when the extension
allocation fails the partially constructed base object is deleted before
an absent result is returned, so in both cases no partially constructed
window remains live. -/
theorem create_alloc_failure (h : LvHeap) (extOk : Bool) :
    lv_win_create h false extOk = (none, h) ∧
    (lv_win_create h true false).1 = none ∧
    (lv_win_create h true false).2.live = h.live := by
  refine ⟨?_, ?_, ?_⟩
  · simp [lv_win_create, lv_obj_create_h]
  · simp [lv_win_create, lv_obj_create_h, lv_obj_del_h]
  · simp [lv_win_create, lv_obj_create_h, lv_obj_del_h]

/-! The header draw callback `lv_win_header_design` (lines 456-494). -/

/-- Draw phases (`lv_design_mode_t`). -/
inductive lv_design_mode_t
  | cover_chk
  | draw_main
  | draw_post
deriving DecidableEq, Repr

/-- Draw callback results (`lv_design_res_t`). -/
inductive lv_design_res_t
  | res_ok
  | cover
  | not_cover
  | masked
deriving DecidableEq, Repr

/-- `lv_win_header_design` (lines 456-494): the cover-check branch returns
the ancestor draw callback's result directly; the main-draw branch calls
the ancestor (background/border) and then draws the title text, the
post-draw branch calls the ancestor, and both fall through to
`return LV_DESIGN_RES_OK`. -/
def lv_win_header_design (ancestor_design : lv_design_mode_t → lv_design_res_t)
    (mode : lv_design_mode_t) : lv_design_res_t :=
  match mode with
  | .cover_chk => ancestor_design .cover_chk
  | .draw_main =>
    let _ := ancestor_design .draw_main
    .res_ok
  | .draw_post =>
    let _ := ancestor_design .draw_post
    .res_ok

/-- C6 counterexample: in the cover-check phase the callback does not
report OK when the ancestor answers NOT_COVER — it forwards the ancestor's
answer. -/
theorem header_design_cover_not_ok :
    lv_win_header_design (fun _ => lv_design_res_t.not_cover)
      lv_design_mode_t.cover_chk ≠ lv_design_res_t.res_ok := by
  decide

/-- C6 amended: the callback returns OK in the main-draw and post-draw
phases regardless of the ancestor draw callback's result, and in the
cover-check phase it returns exactly the ancestor's result. -/
theorem header_design_phase_results
    (ancestor_design : lv_design_mode_t → lv_design_res_t) :
    lv_win_header_design ancestor_design lv_design_mode_t.draw_main =
      lv_design_res_t.res_ok ∧
    lv_win_header_design ancestor_design lv_design_mode_t.draw_post =
      lv_design_res_t.res_ok ∧
    lv_win_header_design ancestor_design lv_design_mode_t.cover_chk =
      ancestor_design lv_design_mode_t.cover_chk :=
  ⟨rfl, rfl, rfl⟩

/-! Title management: `lv_win_set_title` (lines 214-224) and
`lv_win_get_title` (lines 318-324). -/

/-- Modelled from the spec: `lv_mem_alloc` / `lv_mem_realloc` / `lv_mem_free`
of the memory manager are not in `src/`. A heap of live buffer ids;
reallocation frees the old buffer and yields a fresh live one; freeing a
buffer that is not live raises the double-free flag. -/
structure MemState where
  next : Nat
  live : List Nat
  doubleFree : Bool
deriving DecidableEq, Repr

/-- Allocate a fresh buffer. -/
def lv_mem_alloc (m : MemState) : Nat × MemState :=
  (m.next, { m with next := m.next + 1, live := m.next :: m.live })

/-- Free a buffer; freeing a dead buffer is a double free. -/
def lv_mem_free (m : MemState) (p : Nat) : MemState :=
  if p ∈ m.live then { m with live := m.live.erase p }
  else { m with doubleFree := true }

/-- Reallocate: release the old buffer, return a fresh one. -/
def lv_mem_realloc (m : MemState) (p : Nat) : Nat × MemState :=
  lv_mem_alloc (lv_mem_free m p)

/-- The extension fields touched by title management: the memory state, the
title buffer (`ext->title_txt`), its string contents and the byte size of
the exact-fit allocation (`strlen(title) + 1`, the NUL-terminated copy). -/
structure TitleExt where
  mem : MemState
  title_ptr : Nat
  title_val : String
  title_size : Nat
deriving DecidableEq, Repr

/-- `lv_win_set_title` (lines 214-224): reallocate `ext->title_txt` to
`strlen(title) + 1` bytes and copy the new text into it. -/
def lv_win_set_title (e : TitleExt) (title : String) : TitleExt :=
  let r := lv_mem_realloc e.mem e.title_ptr
  { mem := r.2, title_ptr := r.1, title_val := title,
    title_size := title.length + 1 }

/-- `lv_win_get_title` (lines 318-324): return `ext->title_txt`. -/
def lv_win_get_title (e : TitleExt) : String := e.title_val

/-- The title state as `lv_win_create` leaves it (lines 75-76): a freshly
allocated buffer holding the default title "Window". -/
def title_ext_init (m : MemState) : TitleExt :=
  let r := lv_mem_alloc m
  { mem := r.2, title_ptr := r.1, title_val := "Window",
    title_size := ("Window").length + 1 }

lemma lv_win_set_title_live (e : TitleExt) (h1 : e.title_ptr ∈ e.mem.live)
    (h2 : e.mem.doubleFree = false) (t : String) :
    (lv_win_set_title e t).title_ptr ∈ (lv_win_set_title e t).mem.live ∧
    (lv_win_set_title e t).mem.doubleFree = false := by
  simp [lv_win_set_title, lv_mem_realloc, lv_mem_alloc, lv_mem_free, h1, h2]

lemma title_fold_live (ts : List String) :
    ∀ e : TitleExt, e.title_ptr ∈ e.mem.live → e.mem.doubleFree = false →
      (ts.foldl lv_win_set_title e).title_ptr ∈
        (ts.foldl lv_win_set_title e).mem.live ∧
      (ts.foldl lv_win_set_title e).mem.doubleFree = false := by
  induction ts with
  | nil => intro e h1 h2; exact ⟨h1, h2⟩
  | cons t ts ih =>
    intro e h1 h2
    have step := lv_win_set_title_live e h1 h2 t
    exact ih _ step.1 step.2

lemma title_fold_last (ts : List String) :
    ∀ e : TitleExt, lv_win_get_title (ts.foldl lv_win_set_title e) =
      ts.foldl (fun _ t => t) (lv_win_get_title e) := by
  induction ts with
  | nil => intro e; rfl
  | cons t ts ih => intro e; exact ih (lv_win_set_title e t)

/-- C7: `lv_win_set_title` stores an exact-fit NUL-terminated copy of the
new text and `lv_win_get_title` returns it; setting "A" then "" yields "";
and across every sequence of set calls starting from construction the
title reflects the most recent set, the title buffer is live (never stale)
and no double free ever occurs. -/
theorem set_title_get_title (m : MemState) (hdf : m.doubleFree = false)
    (ts : List String) :
    (∀ (e : TitleExt) (t : String),
      lv_win_get_title (lv_win_set_title e t) = t ∧
      (lv_win_set_title e t).title_size = t.length + 1) ∧
    (∀ e : TitleExt,
      lv_win_get_title (lv_win_set_title (lv_win_set_title e "A") "") = "") ∧
    lv_win_get_title (ts.foldl lv_win_set_title (title_ext_init m)) =
      ts.foldl (fun _ t => t) "Window" ∧
    (ts.foldl lv_win_set_title (title_ext_init m)).title_ptr ∈
      (ts.foldl lv_win_set_title (title_ext_init m)).mem.live ∧
    (ts.foldl lv_win_set_title (title_ext_init m)).mem.doubleFree = false := by
  have hinit : (title_ext_init m).title_ptr ∈ (title_ext_init m).mem.live ∧
      (title_ext_init m).mem.doubleFree = false := by
    simp [title_ext_init, lv_mem_alloc, hdf]
  obtain ⟨hl, hd⟩ := title_fold_live ts (title_ext_init m) hinit.1 hinit.2
  exact ⟨fun e t => ⟨rfl, rfl⟩, fun e => rfl,
    title_fold_last ts (title_ext_init m), hl, hd⟩

/-- Witness for C7 at a concrete memory state and call sequence. -/
theorem set_title_get_title_witness :
    (MemState.mk 0 [] false).doubleFree = false ∧
    ((∀ (e : TitleExt) (t : String),
      lv_win_get_title (lv_win_set_title e t) = t ∧
      (lv_win_set_title e t).title_size = t.length + 1) ∧
    (∀ e : TitleExt,
      lv_win_get_title (lv_win_set_title (lv_win_set_title e "A") "") = "") ∧
    lv_win_get_title
        (["A", ""].foldl lv_win_set_title (title_ext_init (MemState.mk 0 [] false))) =
      ["A", ""].foldl (fun _ t => t) "Window" ∧
    (["A", ""].foldl lv_win_set_title (title_ext_init (MemState.mk 0 [] false))).title_ptr ∈
      (["A", ""].foldl lv_win_set_title (title_ext_init (MemState.mk 0 [] false))).mem.live ∧
    (["A", ""].foldl lv_win_set_title
        (title_ext_init (MemState.mk 0 [] false))).mem.doubleFree = false) :=
  ⟨rfl, set_title_get_title (MemState.mk 0 [] false) rfl ["A", ""]⟩

/-! The content-width accessor `lv_win_get_width` (lines 411-421). -/

/-- The computed style paddings of the window background part
(`LV_WIN_PART_BG`). -/
structure BgStyle where
  padLeft : Int
  padRight : Int
deriving DecidableEq, Repr

/-- Style query for the left padding of a part. -/
def lv_obj_get_style_pad_left (st : BgStyle) : Int := st.padLeft

/-- Style query for the right padding of a part. -/
def lv_obj_get_style_pad_right (st : BgStyle) : Int := st.padRight

/-- `lv_win_get_width` (lines 411-421): `scrl_fit_w` is the fit width of
the page scrollable; both `left` (line 417) and `right` (line 418) are
obtained from `lv_obj_get_style_pad_left` — line 418 queries the left
padding again. -/
def lv_win_get_width (scrl_fit_w : Int) (st : BgStyle) : Int :=
  let left := lv_obj_get_style_pad_left st
  let right := lv_obj_get_style_pad_left st
  scrl_fit_w - left - right

/-- C8: the content-width accessor subtracts the background left padding
for both box edges, returning the scrollable fit width minus twice the
left padding; the right-padding style value is never consulted (the result
does not depend on it). -/
theorem get_width_uses_left_pad_twice (w : Int) (st : BgStyle) :
    lv_win_get_width w st = w - 2 * lv_obj_get_style_pad_left st ∧
    (∀ r : Int, lv_win_get_width w { st with padRight := r } =
      lv_win_get_width w st) := by
  constructor
  · show w - st.padLeft - st.padLeft = w - 2 * st.padLeft
    ring
  · intro r
    rfl

/-! The content-cleaning operation `lv_win_clean` (lines 150-156). -/

/-- `lv_win_clean` (lines 150-156): the scrollable is obtained by applying
`lv_page_get_scrl` to the window object itself — the argument is `win`,
not `ext->page` — and that object's children are deleted (`lv_obj_clean`).
`scrlOf` abstracts `lv_page_get_scrl` (the page widget is outside `src/`),
`children` is the child map of the object tree, and `page` is the window's
stored page reference (`ext->page`), which the function body never reads. -/
def lv_win_clean (scrlOf : Nat → Nat) (children : Nat → List Nat)
    (win page : Nat) : Nat → List Nat :=
  let scrl := scrlOf win
  fun o => if o = scrl then [] else children o

/-- C9: the clean operation empties the children of the object produced by
applying the page-scrollable accessor to the window itself, leaves every
other object's children intact, and its result is independent of the
window's stored page reference. -/
theorem clean_uses_win_accessor (scrlOf : Nat → Nat)
    (children : Nat → List Nat) (win page : Nat) :
    lv_win_clean scrlOf children win page (scrlOf win) = [] ∧
    (∀ o : Nat, o ≠ scrlOf win →
      lv_win_clean scrlOf children win page o = children o) ∧
    (∀ other_page : Nat, lv_win_clean scrlOf children win page =
      lv_win_clean scrlOf children win other_page) := by
  refine ⟨by simp [lv_win_clean], ?_, fun other_page => rfl⟩
  intro o ho
  simp [lv_win_clean, ho]

/-- Witness for C9 at concrete maps and objects (discharging the inner
inequality at object 3). -/
theorem clean_uses_win_accessor_witness :
    lv_win_clean (fun n => n + 100) (fun n => [n]) 5 77 ((fun n => n + 100) 5) = [] ∧
    lv_win_clean (fun n => n + 100) (fun n => [n]) 5 77 3 = (fun n => [n]) 3 ∧
    lv_win_clean (fun n => n + 100) (fun n => [n]) 5 77 =
      lv_win_clean (fun n => n + 100) (fun n => [n]) 5 8 :=
  ⟨(clean_uses_win_accessor (fun n => n + 100) (fun n => [n]) 5 77).1,
   (clean_uses_win_accessor (fun n => n + 100) (fun n => [n]) 5 77).2.1 3 (by decide),
   (clean_uses_win_accessor (fun n => n + 100) (fun n => [n]) 5 77).2.2 8⟩

/-! The `LV_SIGNAL_GET_STATE_DSC` branch of `lv_win_signal` (lines 512-520). -/

/-- The addressable parts of the window widget (`LV_WIN_PART_...`). -/
inductive LvWinPart
  | bg
  | header
  | content_scrl
  | scrlbar
  | other (k : Nat)
deriving DecidableEq, Repr

/-- Signal handler results (`lv_res_t`). -/
inductive lv_res_t
  | inv
  | ok
deriving DecidableEq, Repr

/-- The state-info request record (`lv_get_state_info_t`): the requested
part and the result field, whose incoming value models whatever the caller
left there. -/
structure GetStateInfo where
  part : LvWinPart
  result : Int
deriving DecidableEq, Repr

/-- The `LV_SIGNAL_GET_STATE_DSC` branch of `lv_win_signal` (lines
512-520): for the content-scroll-region, scrollbar and header parts the
state of the backing sub-object (`scrl_state`, `sb_state`,
`header_state`) is written into `info->result`; for any other part the
field is left untouched; the branch returns `LV_RES_OK` before the
ancestor handler call at line 523 is ever reached, so `anc`, the result
the ancestor signal handler would produce, is never consulted. -/
def lv_win_signal_get_state_dsc (anc : lv_res_t)
    (scrl_state sb_state header_state : Int) (info : GetStateInfo) :
    lv_res_t × GetStateInfo :=
  if info.part = LvWinPart.content_scrl then
    (lv_res_t.ok, { info with result := scrl_state })
  else if info.part = LvWinPart.scrlbar then
    (lv_res_t.ok, { info with result := sb_state })
  else if info.part = LvWinPart.header then
    (lv_res_t.ok, { info with result := header_state })
  else (lv_res_t.ok, info)

/-- C10: the state-info branch always returns OK, its outcome is the same
whatever the ancestor signal handler would return (the ancestor is never
invoked), and when the requested part is none of content-scroll-region,
scrollbar or header the result field is left completely unmodified. -/
theorem signal_get_state_dsc (anc anc' : lv_res_t)
    (scrl_state sb_state header_state : Int) (info : GetStateInfo) :
    (lv_win_signal_get_state_dsc anc scrl_state sb_state header_state info).1 =
      lv_res_t.ok ∧
    lv_win_signal_get_state_dsc anc scrl_state sb_state header_state info =
      lv_win_signal_get_state_dsc anc' scrl_state sb_state header_state info ∧
    (info.part ≠ LvWinPart.content_scrl → info.part ≠ LvWinPart.scrlbar →
      info.part ≠ LvWinPart.header →
      (lv_win_signal_get_state_dsc anc scrl_state sb_state header_state info).2 =
        info) := by
  refine ⟨?_, rfl, ?_⟩
  · unfold lv_win_signal_get_state_dsc
    split_ifs <;> rfl
  · intro h1 h2 h3
    simp [lv_win_signal_get_state_dsc, h1, h2, h3]

/-- Witness for C10 at a concrete request for the background part. -/
theorem signal_get_state_dsc_witness :
    (lv_win_signal_get_state_dsc lv_res_t.inv 1 2 3
      (GetStateInfo.mk LvWinPart.bg 42)).1 = lv_res_t.ok ∧
    lv_win_signal_get_state_dsc lv_res_t.inv 1 2 3
        (GetStateInfo.mk LvWinPart.bg 42) =
      lv_win_signal_get_state_dsc lv_res_t.ok 1 2 3
        (GetStateInfo.mk LvWinPart.bg 42) ∧
    (lv_win_signal_get_state_dsc lv_res_t.inv 1 2 3
      (GetStateInfo.mk LvWinPart.bg 42)).2 = GetStateInfo.mk LvWinPart.bg 42 :=
  ⟨(signal_get_state_dsc lv_res_t.inv lv_res_t.ok 1 2 3
      (GetStateInfo.mk LvWinPart.bg 42)).1,
   (signal_get_state_dsc lv_res_t.inv lv_res_t.ok 1 2 3
      (GetStateInfo.mk LvWinPart.bg 42)).2.1,
   (signal_get_state_dsc lv_res_t.inv lv_res_t.ok 1 2 3
      (GetStateInfo.mk LvWinPart.bg 42)).2.2 (by decide) (by decide) (by decide)⟩

end LvWin
